import Mathlib

/-!
Verification development for the deployment orchestrator
(`deploy-orchestrator.js`) and production monitor
(`monitoring-dashboard.js`) of the quest-tracker deployment activity.

The JavaScript is shallowly embedded: each stateful method becomes a pure
state-transition function, HTTP / filesystem effects become explicit outcome
parameters, and JS number arithmetic on counters and ratios is modelled over
`Nat` and `ℚ` (the values involved are small integers and exact quotients).
-/

/- ### Production monitor: data model (`ProductionMonitor` metrics objects) -/

/-- Reachability status of a monitored service (`metrics.status`). -/
inductive SvcStatus where
  | unknown
  | healthy
  | unhealthy
deriving DecidableEq

/-- Deep API health sub-status (`metrics.deploymentHealth`). -/
inductive DeployHealth where
  | unknown
  | healthy
  | degraded
  | unhealthy
deriving DecidableEq

/-- The metrics object of one service, as initialised in the `ProductionMonitor`
constructor and mutated by `checkServiceHealth`. -/
structure ServiceMetrics where
  status : SvcStatus
  responseTime : List Nat
  availability : ℚ
  errorCount : Nat
  totalRequests : Nat
  lastCheck : Option Nat
  consecutiveFailures : Nat
  deploymentHealth : DeployHealth
deriving DecidableEq

/-- The metrics object created for each service in the constructor. -/
def initialMetrics : ServiceMetrics :=
  { status := .unknown
    responseTime := []
    availability := 1
    errorCount := 0
    totalRequests := 0
    lastCheck := none
    consecutiveFailures := 0
    deploymentHealth := .unknown }

/-- Embedding of `calculateAvailability`: `1.0` when `totalRequests` is zero,
otherwise `(totalRequests - errorCount) / totalRequests` (the source computes
`successfulRequests = totalRequests - errorCount` and divides). -/
def calculateAvailability (m : ServiceMetrics) : ℚ :=
  if m.totalRequests = 0 then 1
  else ((m.totalRequests : ℚ) - (m.errorCount : ℚ)) / (m.totalRequests : ℚ)

/-- Outcome of the deep API health sub-check (`checkApiHealth`), which only
touches `deploymentHealth` (and raises alerts): either the `/health` endpoint
answered 2xx with some JSON `status` field, or the sub-check itself failed
(non-2xx, bad JSON, timeout). -/
inductive ApiOutcome where
  | reports (statusField : String)
  | subcheckFailed
deriving DecidableEq

/-- Outcome of the basic connectivity fetch in `checkServiceHealth`.
`httpOk`/`httpErr` are a resolved fetch (2xx / non-2xx); for an api-typed
service a 2xx carries the deep sub-check outcome (`none` for web services).
`netErr` is a rejected fetch (network failure or timeout). -/
inductive CheckOutcome where
  | httpOk (rt : Nat) (deep : Option ApiOutcome)
  | httpErr (rt : Nat)
  | netErr
deriving DecidableEq

/-- The rolling-buffer push in `checkServiceHealth`: `push`, then `shift` if
the length exceeds 100 (source keeps only the last 100 response times). -/
def pushSample (xs : List Nat) (v : Nat) : List Nat :=
  let ys := xs ++ [v]
  if ys.length > 100 then ys.drop 1 else ys

/-- Effect of `checkApiHealth` on `deploymentHealth`. -/
def applyDeepCheck (deep : Option ApiOutcome) (m : ServiceMetrics) : ServiceMetrics :=
  match deep with
  | none => m
  | some (.reports s) =>
      if s = "healthy" then { m with deploymentHealth := .healthy }
      else { m with deploymentHealth := .degraded }
  | some .subcheckFailed => { m with deploymentHealth := .unhealthy }

/-- Embedding of `checkServiceHealth` as a transition on the metrics object.
Mirrors the control flow of the source: a resolved fetch first increments
`totalRequests` and pushes the sample; a 2xx then resets
`consecutiveFailures` and sets status healthy (running the deep sub-check for
api services); a non-2xx throws into the catch block, as does a rejected
fetch, where `errorCount` and `consecutiveFailures` increment and status
becomes unhealthy.  Finally `lastCheck` is set and `availability` recomputed. -/
def checkServiceHealth (now : Nat) (o : CheckOutcome) (m : ServiceMetrics) : ServiceMetrics :=
  let m1 :=
    match o with
    | .httpOk rt deep =>
        let ma := { m with
          totalRequests := m.totalRequests + 1
          responseTime := pushSample m.responseTime rt }
        applyDeepCheck deep
          { ma with status := .healthy, consecutiveFailures := 0 }
    | .httpErr rt =>
        let ma := { m with
          totalRequests := m.totalRequests + 1
          responseTime := pushSample m.responseTime rt }
        { ma with
          status := .unhealthy
          errorCount := ma.errorCount + 1
          consecutiveFailures := ma.consecutiveFailures + 1 }
    | .netErr =>
        { m with
          status := .unhealthy
          errorCount := m.errorCount + 1
          consecutiveFailures := m.consecutiveFailures + 1 }
  { m1 with lastCheck := some now, availability := calculateAvailability m1 }

/-- A sequence of health-check rounds applied to the metrics of one service,
starting from the constructor state; each round carries the clock value and
the fetch outcome. -/
def runChecks (trace : List (Nat × CheckOutcome)) : ServiceMetrics :=
  trace.foldl (fun m p => checkServiceHealth p.1 p.2 m) initialMetrics

/-- Whether a check outcome is recorded as a request, i.e. the fetch
resolved to an HTTP response (2xx or not). -/
def recordedB : CheckOutcome → Bool
  | .httpOk _ _ => true
  | .httpErr _ => true
  | .netErr => false

/-- Whether a check outcome is a recorded request that was an error (a
non-2xx response). -/
def recordedErrB : CheckOutcome → Bool
  | .httpErr _ => true
  | _ => false

/-- Whether a check outcome enters the error path (non-2xx response or
network failure) — this is what `errorCount` counts. -/
def errB : CheckOutcome → Bool
  | .httpOk _ _ => false
  | _ => true

/-- Number of checks in a trace that were recorded as requests. -/
def countRecorded (os : List CheckOutcome) : Nat := os.countP recordedB

/-- Number of checks in a trace that were recorded as requests and were
errors. -/
def countRecordedErrors (os : List CheckOutcome) : Nat := os.countP recordedErrB

/-- Number of checks in a trace that entered the error path. -/
def countErrors (os : List CheckOutcome) : Nat := os.countP errB

/-- Availability as the sentence of the spec reads: with `n` recorded requests of
which `e` were errors, `(n - e) / n`, and `1.0` when `n = 0`.  Stated from
the wording of the spec for comparison with `calculateAvailability` from the source. -/
def claimedAvailability (os : List CheckOutcome) : ℚ :=
  let n := countRecorded os
  let e := countRecordedErrors os
  if n = 0 then 1 else ((n : ℚ) - (e : ℚ)) / (n : ℚ)

/- ### Production monitor: aggregate health (`calculateOverallHealth`) -/

/-- Aggregate (system-wide) health classification. -/
inductive OverallStatus where
  | healthy
  | degraded
  | critical
deriving DecidableEq

/-- Services whose status is healthy (`servicesOnline` accumulator). -/
def servicesOnline (ms : List ServiceMetrics) : Nat :=
  ms.countP (fun m => m.status = SvcStatus.healthy)

/-- Sum of `totalRequests` over all services. -/
def totalRequestsAll (ms : List ServiceMetrics) : Nat :=
  (ms.map (fun m => m.totalRequests)).sum

/-- Sum of `errorCount` over all services. -/
def totalErrorsAll (ms : List ServiceMetrics) : Nat :=
  (ms.map (fun m => m.errorCount)).sum

/-- Overall error rate: `totalErrors / totalRequests` when there were
requests, `0` otherwise. -/
def overallErrorRate (ms : List ServiceMetrics) : ℚ :=
  if totalRequestsAll ms > 0
  then (totalErrorsAll ms : ℚ) / (totalRequestsAll ms : ℚ)
  else 0

/-- Embedding of `calculateOverallHealth`, mirroring the sequence of
overwrites of the `status` local: start `healthy`; set `degraded` when not
every service is online; set `critical` when fewer than half are online; set
`degraded` when the overall error rate exceeds the configured threshold. -/
def calculateOverallHealth (threshold : ℚ) (ms : List ServiceMetrics) : OverallStatus :=
  let online := servicesOnline ms
  let sz := ms.length
  let s1 := OverallStatus.healthy
  let s2 := if online < sz then OverallStatus.degraded else s1
  let s3 := if (online : ℚ) < (sz : ℚ) * (1 / 2) then OverallStatus.critical else s2
  if overallErrorRate ms > threshold then OverallStatus.degraded else s3

/- ### Production monitor: alerts (`createAlert`) -/

/-- Alert severity levels used by the monitor. -/
inductive Severity where
  | critical
  | warning
  | info
deriving DecidableEq

/-- One alert object; the ISO timestamp string is modelled as the epoch
 millisecond value it encodes. -/
structure Alert where
  severity : Severity
  service : String
  message : String
  timestamp : Nat
deriving DecidableEq

/-- The duplicate test inside `createAlert`: some existing alert has the same
service and message and was created within the trailing 5 minutes
(300000 ms).  A future-dated timestamp also counts as a duplicate, exactly as
the signed comparison in the source does. -/
def isDuplicate (now : Nat) (alerts : List Alert) (a : Alert) : Bool :=
  alerts.any (fun e =>
    e.service = a.service && e.message = a.message && now - e.timestamp < 300000)

/-- Embedding of `createAlert`: a duplicate is dropped entirely; otherwise the
alert is pushed, dispatched (`sendAlert`, which also persists it — the second
component records that it ran), and the list is trimmed to the last 50. -/
def createAlert (now : Nat) (alerts : List Alert) (a : Alert) : List Alert × Bool :=
  if isDuplicate now alerts a then (alerts, false)
  else
    let pushed := alerts ++ [a]
    (if pushed.length > 50 then pushed.drop 1 else pushed, true)

/- ### Deployment orchestrator: pipeline (`deploy`, `handleDeploymentFailure`) -/

/-- Result of executing one pipeline phase: it either resolves or throws with
an error message. -/
inductive StepOutcome where
  | ok
  | err (msg : String)
deriving DecidableEq

/-- Embedding of the rollback decision in `handleDeploymentFailure`: rollback is
attempted exactly when the 0-based index of the failed step is at least 2. -/
def rollbackDecision (failedStep : Nat) : Bool :=
  decide (2 ≤ failedStep)

/-- Observable outcome of one `deploy()` call. -/
structure DeployResult where
  success : Bool
  failedStep : Option Nat
  rollbackInvoked : Bool
  failureRecorded : Bool
  errorRaised : Bool
deriving DecidableEq

/-- The `deploy()` for-loop over the seven bound phase closures, driven by a
function giving the outcome of each step.  `remaining` counts the iterations left
(the loop runs for `i = 0 .. 6`).  On a throw at step `i` the orchestrator
calls `handleDeploymentFailure(error, i)` (rollback when `i ≥ 2`) and
re-raises; the outer catch writes the failure record and re-raises again. -/
def deployLoop (f : Nat → StepOutcome) : Nat → Nat → DeployResult
  | 0, _ =>
      { success := true, failedStep := none, rollbackInvoked := false
        failureRecorded := false, errorRaised := false }
  | n + 1, i =>
      match f i with
      | .ok => deployLoop f n (i + 1)
      | .err _ =>
          { success := false, failedStep := some i
            rollbackInvoked := rollbackDecision i
            failureRecorded := true, errorRaised := true }

/-- One `deploy()` run: seven steps starting at index 0. -/
def deployRun (f : Nat → StepOutcome) : DeployResult :=
  deployLoop f 7 0

/- ### Deployment orchestrator: progress state (`deploymentState`) -/

/-- The progress-tracking fields of `this.deploymentState`. -/
structure OrchState where
  phase : String
  currentStep : Nat
  totalSteps : Nat
deriving DecidableEq

/-- State as set up in the constructor. -/
def initOrchState : OrchState := { phase := "initialized", currentStep := 0, totalSteps := 0 }

/-- Snapshots produced by the `deploy()` loop body: each iteration first sets
`currentStep := i + 1`; a failing step ends the run with no further mutation
of these fields (`handleDeploymentFailure`, `rollback` and
`deploymentFailure` touch none of them). -/
def loopStates (f : Nat → StepOutcome) : Nat → Nat → OrchState → List OrchState
  | 0, _, _ => []
  | n + 1, i, s =>
      let s1 := { s with currentStep := i + 1 }
      match f i with
      | .ok => s1 :: loopStates f n (i + 1) s1
      | .err _ => [s1]

/-- Every successive value of the progress state over one run: the
constructor state, then `phase := "started"`, then `totalSteps := 7` (the
length of the steps array), then the per-iteration snapshots. -/
def deployStates (f : Nat → StepOutcome) : List OrchState :=
  let s0 := initOrchState
  let s1 := { s0 with phase := "started" }
  let s2 := { s1 with totalSteps := 7 }
  s0 :: s1 :: s2 :: loopStates f 7 0 s2

/-- A run in which every phase resolves. -/
def allOk : Nat → StepOutcome := fun _ => StepOutcome.ok

/- ### Deployment orchestrator: health-check phase (`runHealthChecks`) -/

/-- The error message thrown after exhausting the retries for a service. -/
def failMsg (serviceName : String) (maxAttempts : Nat) : String :=
  "Health check failed for " ++ serviceName ++ " after " ++ toString maxAttempts ++ " attempts"

/-- The retry loop of `runHealthChecks` for one service.  `g k` tells whether
the k-th attempt (1-based) at `healthCheckService` resolves; `remaining` is
`maxAttempts - attempts`, the number of `while` iterations left.  A success
breaks out; a failure on the final attempt throws `failMsg`; otherwise the
loop sleeps for the configured interval and retries. -/
def healthCheckGo (name : String) (g : Nat → Bool) (maxAttempts : Nat) :
    Nat → Nat → Except String Unit
  | 0, _ => Except.ok ()
  | n + 1, attempts =>
      let a := attempts + 1
      if g a then Except.ok ()
      else if a = maxAttempts then Except.error (failMsg name maxAttempts)
      else healthCheckGo name g maxAttempts n a

/-- Health-checking one deployed service with `maxAttempts` configured
retries (`attempts` starts at 0). -/
def healthCheckService (name : String) (g : Nat → Bool) (maxAttempts : Nat) :
    Except String Unit :=
  healthCheckGo name g maxAttempts maxAttempts 0

/- ### Deployment orchestrator: rollback (`rollback`) -/

/-- Status recorded for a service by the deploy-services phase. -/
inductive RecStatus where
  | deployed
  | failed
deriving DecidableEq

/-- Embedding of `rollback`: iterate the recorded services (an
insertion-ordered map, modelled as the association list in deployment order)
in reverse, and invoke `rollbackService` for exactly those with status
`deployed`.  The result lists the rolled-back service names in invocation
order. -/
def rollbackSequence (services : List (String × RecStatus)) : List String :=
  services.reverse.foldl
    (fun acc p => if p.2 = RecStatus.deployed then acc ++ [p.1] else acc) []

/- ### Deployment orchestrator: CLI entry point (`main`) -/

/-- What `main` does: exit 1 immediately on an invalid environment, or run
the pipeline and exit with its status. -/
inductive MainOutcome where
  | invalidExit (code : Nat)
  | ranPipeline (env : String) (exitCode : Nat)
deriving DecidableEq

/-- Environment resolution `args[0] || "staging"`: a missing argument and an
empty-string argument are both falsy in JS and default to staging. -/
def resolveEnvironment (args : List String) : String :=
  match args.head? with
  | none => "staging"
  | some s => if s = "" then "staging" else s

/-- Embedding of `main`: validate the resolved environment against the list
the two valid environment names, exiting 1 on failure; otherwise run `deploy()`
and exit 0 on success, 1 on a raised error. -/
def mainRun (args : List String) (f : Nat → StepOutcome) : MainOutcome :=
  let environment := resolveEnvironment args
  if ["staging", "production"].contains environment then
    MainOutcome.ranPipeline environment (if (deployRun f).success then 0 else 1)
  else
    MainOutcome.invalidExit 1

/- ### Concrete inputs used by counterexamples and witnesses -/

/-- Trace with one 2xx check and then one network failure. -/
def ctraceC1 : List (Nat × CheckOutcome) := [(0, CheckOutcome.httpOk 10 none), (1, CheckOutcome.netErr)]

/-- Trace with a single 2xx check. -/
def wtraceC1 : List (Nat × CheckOutcome) := [(0, CheckOutcome.httpOk 5 none)]

/-- A healthy service metrics value with one recorded, successful request. -/
def mHealthyOk : ServiceMetrics :=
  { initialMetrics with status := .healthy, totalRequests := 1 }

/-- An unhealthy service metrics value whose only requests were recorded and
successful (unreachability came from network errors is not reflected here:
this exercises the classifier with a low error rate). -/
def mUnhealthyLow : ServiceMetrics :=
  { initialMetrics with status := .unhealthy, totalRequests := 1 }

/-- An unhealthy service metrics value with one recorded request that was an
error (error rate 1). -/
def mUnhealthyReq : ServiceMetrics :=
  { initialMetrics with status := .unhealthy, totalRequests := 1, errorCount := 1 }

/-- Step outcomes that fail at 0-based step 2 (deploy-services). -/
def fFailAt2 : Nat → StepOutcome :=
  fun j => if j < 2 then StepOutcome.ok else StepOutcome.err "deploy blew up"

/-- Step outcomes that fail at 0-based step 3 (health-checks) with the
exhausted-retries message. -/
def pfFailAt3 : Nat → StepOutcome :=
  fun j => if j < 3 then StepOutcome.ok else StepOutcome.err (failMsg "backend" 3)

/-- Recorded deploy-phase services: one deployed, then one failed. -/
def svcsW : List (String × RecStatus) :=
  [("backend", RecStatus.deployed), ("frontend", RecStatus.failed)]

/-- A concrete alert. -/
def alertW1 : Alert :=
  { severity := .critical, service := "backend", message := "down", timestamp := 0 }

/-- A second alert with the same service and message, later timestamp. -/
def alertW2 : Alert :=
  { severity := .critical, service := "backend", message := "down", timestamp := 60000 }

/- ### Helper lemmas -/

/-- The deep sub-check only ever writes `deploymentHealth`. -/
theorem applyDeepCheck_fields (d : Option ApiOutcome) (m : ServiceMetrics) :
    (applyDeepCheck d m).totalRequests = m.totalRequests ∧
    (applyDeepCheck d m).errorCount = m.errorCount ∧
    (applyDeepCheck d m).responseTime = m.responseTime ∧
    (applyDeepCheck d m).status = m.status ∧
    (applyDeepCheck d m).consecutiveFailures = m.consecutiveFailures := by
  rcases d with _ | a
  · simp [applyDeepCheck]
  · rcases a with s | _
    · by_cases h : s = "healthy" <;> simp [applyDeepCheck, h]
    · simp [applyDeepCheck]

/-- After any single check, the stored availability is exactly
`calculateAvailability` of the resulting metrics. -/
theorem checkServiceHealth_availability (now : Nat) (o : CheckOutcome) (m : ServiceMetrics) :
    (checkServiceHealth now o m).availability
      = calculateAvailability (checkServiceHealth now o m) := by
  rcases o with ⟨rt, d⟩ | rt | _
  · obtain ⟨h1, h2, _, _, _⟩ := applyDeepCheck_fields d
      { m with
        totalRequests := m.totalRequests + 1
        responseTime := pushSample m.responseTime rt
        status := .healthy, consecutiveFailures := 0 }
    simp [checkServiceHealth, calculateAvailability, h1, h2]
  · simp [checkServiceHealth, calculateAvailability]
  · simp [checkServiceHealth, calculateAvailability]

/-- Field changes of one check on the request counters. -/
theorem checkServiceHealth_counters (now : Nat) (o : CheckOutcome) (m : ServiceMetrics) :
    (checkServiceHealth now o m).totalRequests
        = m.totalRequests + (if recordedB o then 1 else 0) ∧
    (checkServiceHealth now o m).errorCount
        = m.errorCount + (if errB o then 1 else 0) := by
  rcases o with ⟨rt, d⟩ | rt | _
  · obtain ⟨h1, h2, _, _, _⟩ := applyDeepCheck_fields d
      { m with
        totalRequests := m.totalRequests + 1
        responseTime := pushSample m.responseTime rt
        status := .healthy, consecutiveFailures := 0 }
    simp [checkServiceHealth, recordedB, errB, h1, h2]
  · simp [checkServiceHealth, recordedB, errB]
  · simp [checkServiceHealth, recordedB, errB]

/-- Counter totals over a trace of checks, from any starting state. -/
theorem runChecksFrom_counters :
    ∀ (trace : List (Nat × CheckOutcome)) (m : ServiceMetrics),
      (trace.foldl (fun m p => checkServiceHealth p.1 p.2 m) m).totalRequests
          = m.totalRequests + countRecorded (trace.map Prod.snd) ∧
      (trace.foldl (fun m p => checkServiceHealth p.1 p.2 m) m).errorCount
          = m.errorCount + countErrors (trace.map Prod.snd)
  | [], m => by simp [countRecorded, countErrors]
  | p :: tr, m => by
      obtain ⟨ih1, ih2⟩ := runChecksFrom_counters tr (checkServiceHealth p.1 p.2 m)
      obtain ⟨h1, h2⟩ := checkServiceHealth_counters p.1 p.2 m
      refine ⟨?_, ?_⟩
      · rw [List.foldl_cons, ih1, h1]
        simp [countRecorded, List.countP_cons]
        omega
      · rw [List.foldl_cons, ih2, h2]
        simp [countErrors, List.countP_cons]
        omega

/-- The stored availability matches `calculateAvailability` after any trace,
from any starting state that satisfies the same relation. -/
theorem runChecksFrom_availability :
    ∀ (trace : List (Nat × CheckOutcome)) (m : ServiceMetrics),
      m.availability = calculateAvailability m →
      (trace.foldl (fun m p => checkServiceHealth p.1 p.2 m) m).availability
        = calculateAvailability (trace.foldl (fun m p => checkServiceHealth p.1 p.2 m) m)
  | [], _, h => h
  | p :: tr, m, _ =>
      runChecksFrom_availability tr _ (checkServiceHealth_availability p.1 p.2 m)

/- ### Claim C1: availability bookkeeping -/

/-- Claim C1, counterexample.  One successful 2xx check followed by one
network-error check: the network error increments `errorCount` without
incrementing `totalRequests`, so the single recorded request had no error
(`n = 1`, `e = 0`) yet the stored availability is `0`, not `(n-e)/n = 1`. -/
theorem C1_counterexample :
    (runChecks ctraceC1).availability = 0 ∧
    countRecorded (ctraceC1.map Prod.snd) = 1 ∧
    countRecordedErrors (ctraceC1.map Prod.snd) = 0 ∧
    claimedAvailability (ctraceC1.map Prod.snd) = 1 ∧
    (runChecks ctraceC1).availability ≠ claimedAvailability (ctraceC1.map Prod.snd) := by
  have h0 : (runChecks ctraceC1).availability = 0 := by
    simp [runChecks, ctraceC1, checkServiceHealth, initialMetrics, applyDeepCheck,
      pushSample, calculateAvailability]
  have h4 : claimedAvailability (ctraceC1.map Prod.snd) = 1 := by
    simp [claimedAvailability, countRecorded, countRecordedErrors, ctraceC1,
      recordedB, recordedErrB, List.countP_cons, List.countP_nil]
  exact ⟨h0, by decide, by decide, h4, by rw [h0, h4]; norm_num⟩

/-- Claim C1, amended.  After every health-check round the stored
availability equals `calculateAvailability` of the current counters
(`1.0` with zero requests, else `(totalRequests - errorCount) /
totalRequests`); and whenever no check in the history failed at the network
layer — so every error was a recorded non-2xx request — this is exactly the
claimed `(n - e) / n` over the `n` recorded requests with `e` errors. -/
theorem C1_availability (trace : List (Nat × CheckOutcome)) :
    (runChecks trace).availability = calculateAvailability (runChecks trace) ∧
    ((∀ p ∈ trace, p.2 ≠ CheckOutcome.netErr) →
      (runChecks trace).availability = claimedAvailability (trace.map Prod.snd)) := by
  have ha : (runChecks trace).availability = calculateAvailability (runChecks trace) :=
    runChecksFrom_availability trace initialMetrics rfl
  have hc1 : (runChecks trace).totalRequests = countRecorded (trace.map Prod.snd) := by
    have h := (runChecksFrom_counters trace initialMetrics).1
    simpa [runChecks, initialMetrics] using h
  have hc2 : (runChecks trace).errorCount = countErrors (trace.map Prod.snd) := by
    have h := (runChecksFrom_counters trace initialMetrics).2
    simpa [runChecks, initialMetrics] using h
  refine ⟨ha, fun h => ?_⟩
  have hee : countErrors (trace.map Prod.snd) = countRecordedErrors (trace.map Prod.snd) := by
    unfold countErrors countRecordedErrors
    apply List.countP_congr
    intro o ho
    obtain ⟨p, hp, rfl⟩ := List.mem_map.mp ho
    have hne := h p hp
    rcases hq : p.2 with ⟨rt, d⟩ | rt | _
    · simp [errB, recordedErrB]
    · simp [errB, recordedErrB]
    · exact absurd hq hne
  rw [ha]
  simp only [calculateAvailability, claimedAvailability, hc1, hc2, hee]

/-- Claim C1, witness: the amended statement applied to a one-round 2xx
trace. -/
theorem C1_witness :
    (∀ p ∈ wtraceC1, p.2 ≠ CheckOutcome.netErr) ∧
    (runChecks wtraceC1).availability = claimedAvailability (wtraceC1.map Prod.snd) :=
  ⟨by decide, (C1_availability wtraceC1).2 (by decide)⟩

/- ### Claim C4: when response-time samples are recorded -/

/-- Claim C4, counterexample.  A non-2xx response on the very first check:
the claim says no sample is recorded on a non-2xx response, but the source
pushes the sample (and increments `totalRequests`) before inspecting
`response.ok`, so the failure path leaves the sample in the buffer. -/
theorem C4_counterexample :
    (checkServiceHealth 0 (CheckOutcome.httpErr 42) initialMetrics).responseTime = [42] ∧
    (checkServiceHealth 0 (CheckOutcome.httpErr 42) initialMetrics).status = SvcStatus.unhealthy ∧
    (checkServiceHealth 0 (CheckOutcome.httpErr 42) initialMetrics).errorCount = 1 ∧
    (checkServiceHealth 0 (CheckOutcome.httpErr 42) initialMetrics).responseTime ≠ [] := by
  refine ⟨by decide, by decide, by decide, by decide⟩

/-- Claim C4, amended.  A response-time sample is appended exactly when the
connectivity fetch resolves to an HTTP response, 2xx or not (in both cases
`totalRequests` also increments); only a network/timeout error records no
sample.  A 2xx additionally resets `consecutiveFailures` and sets status
healthy without touching `errorCount`; a non-2xx or network error increments
`errorCount` and `consecutiveFailures` and sets status unhealthy. -/
theorem C4_sample_recording (now rt : Nat) (deep : Option ApiOutcome) (m : ServiceMetrics) :
    ((checkServiceHealth now (CheckOutcome.httpOk rt deep) m).responseTime
        = pushSample m.responseTime rt ∧
      (checkServiceHealth now (CheckOutcome.httpOk rt deep) m).status = SvcStatus.healthy ∧
      (checkServiceHealth now (CheckOutcome.httpOk rt deep) m).consecutiveFailures = 0 ∧
      (checkServiceHealth now (CheckOutcome.httpOk rt deep) m).totalRequests
        = m.totalRequests + 1 ∧
      (checkServiceHealth now (CheckOutcome.httpOk rt deep) m).errorCount = m.errorCount) ∧
    ((checkServiceHealth now (CheckOutcome.httpErr rt) m).responseTime
        = pushSample m.responseTime rt ∧
      (checkServiceHealth now (CheckOutcome.httpErr rt) m).status = SvcStatus.unhealthy ∧
      (checkServiceHealth now (CheckOutcome.httpErr rt) m).errorCount = m.errorCount + 1 ∧
      (checkServiceHealth now (CheckOutcome.httpErr rt) m).consecutiveFailures
        = m.consecutiveFailures + 1 ∧
      (checkServiceHealth now (CheckOutcome.httpErr rt) m).totalRequests
        = m.totalRequests + 1) ∧
    ((checkServiceHealth now CheckOutcome.netErr m).responseTime = m.responseTime ∧
      (checkServiceHealth now CheckOutcome.netErr m).status = SvcStatus.unhealthy ∧
      (checkServiceHealth now CheckOutcome.netErr m).errorCount = m.errorCount + 1 ∧
      (checkServiceHealth now CheckOutcome.netErr m).consecutiveFailures
        = m.consecutiveFailures + 1 ∧
      (checkServiceHealth now CheckOutcome.netErr m).totalRequests = m.totalRequests) := by
  obtain ⟨h1, h2, h3, h4, h5⟩ := applyDeepCheck_fields deep
    { m with
      totalRequests := m.totalRequests + 1
      responseTime := pushSample m.responseTime rt
      status := .healthy, consecutiveFailures := 0 }
  refine ⟨⟨?_, ?_, ?_, ?_, ?_⟩, ?_, ?_⟩
  · simpa [checkServiceHealth] using h3
  · simpa [checkServiceHealth] using h4
  · simpa [checkServiceHealth] using h5
  · simpa [checkServiceHealth] using h1
  · simpa [checkServiceHealth] using h2
  · exact ⟨by simp [checkServiceHealth], by simp [checkServiceHealth],
      by simp [checkServiceHealth], by simp [checkServiceHealth],
      by simp [checkServiceHealth]⟩
  · exact ⟨by simp [checkServiceHealth], by simp [checkServiceHealth],
      by simp [checkServiceHealth], by simp [checkServiceHealth],
      by simp [checkServiceHealth]⟩

/- ### Claim C7: rolling sample buffer bound and FIFO eviction -/

/-- One push keeps the buffer within the 100-sample bound. -/
theorem pushSample_length_le (xs : List Nat) (v : Nat) (h : xs.length ≤ 100) :
    (pushSample xs v).length ≤ 100 := by
  simp only [pushSample]
  by_cases hc : (xs ++ [v]).length > 100
  · rw [if_pos hc]
    simpa using h
  · rw [if_neg hc]
    simp only [List.length_append, List.length_singleton] at hc ⊢
    omega

/-- One health check keeps the buffer within the 100-sample bound. -/
theorem checkServiceHealth_buffer (now : Nat) (o : CheckOutcome) (m : ServiceMetrics)
    (h : m.responseTime.length ≤ 100) :
    (checkServiceHealth now o m).responseTime.length ≤ 100 := by
  rcases o with ⟨rt, d⟩ | rt | _
  · obtain ⟨_, _, h3, _, _⟩ := applyDeepCheck_fields d
      { m with
        totalRequests := m.totalRequests + 1
        responseTime := pushSample m.responseTime rt
        status := .healthy, consecutiveFailures := 0 }
    simp only [checkServiceHealth]
    rw [h3]
    exact pushSample_length_le _ _ h
  · simpa [checkServiceHealth] using pushSample_length_le m.responseTime rt h
  · simpa [checkServiceHealth] using h

/-- The buffer stays within bound over any trace from a bounded start. -/
theorem runChecksFrom_buffer :
    ∀ (trace : List (Nat × CheckOutcome)) (m : ServiceMetrics),
      m.responseTime.length ≤ 100 →
      (trace.foldl (fun m p => checkServiceHealth p.1 p.2 m) m).responseTime.length ≤ 100
  | [], _, h => h
  | p :: tr, m, h =>
      runChecksFrom_buffer tr _ (checkServiceHealth_buffer p.1 p.2 m h)

/-- Claim C7, confirmed.  After any sequence of health-check rounds the
rolling response-time buffer holds at most 100 samples, and pushing into a
full buffer of 100 evicts exactly the oldest sample, preserving the order of
the rest. -/
theorem C7_buffer_bound (trace : List (Nat × CheckOutcome)) (xs : List Nat) (v : Nat)
    (hfull : xs.length = 100) :
    (runChecks trace).responseTime.length ≤ 100 ∧
    pushSample xs v = xs.drop 1 ++ [v] := by
  constructor
  · exact runChecksFrom_buffer trace initialMetrics (by simp [initialMetrics])
  · simp only [pushSample]
    rw [if_pos (by simp [hfull])]
    exact List.drop_append_of_le_length (by omega)

/-- Claim C7, witness: the empty trace and a concrete full buffer. -/
theorem C7_witness :
    (runChecks []).responseTime.length ≤ 100 ∧
    pushSample (List.replicate 100 0) 7 = (List.replicate 100 0).drop 1 ++ [7] :=
  C7_buffer_bound [] (List.replicate 100 0) 7 (by simp)

/- ### Claim C2: aggregate health classification -/

/-- Claim C2, counterexample.  Two services, both unhealthy, each with one
recorded request that errored: fewer than half the services are healthy
(0 of 2), but the overall error rate (100%) exceeds the 5% threshold and the
final error-rate check overwrites `critical` with `degraded`. -/
theorem C2_counterexample :
    calculateOverallHealth (1 / 20) [mUnhealthyReq, mUnhealthyReq] = OverallStatus.degraded ∧
    2 * servicesOnline [mUnhealthyReq, mUnhealthyReq]
      < ([mUnhealthyReq, mUnhealthyReq] : List ServiceMetrics).length ∧
    OverallStatus.degraded ≠ OverallStatus.critical := by
  refine ⟨?_, by decide, by decide⟩
  simp [calculateOverallHealth, servicesOnline, overallErrorRate, totalRequestsAll,
    totalErrorsAll, mUnhealthyReq, initialMetrics, List.countP_cons, List.countP_nil]
  norm_num

/-- The float comparison in the source `online < size * 0.5` is the integer
condition `2 * online < size`. -/
theorem half_lt_iff (a b : Nat) : (a : ℚ) < (b : ℚ) * (1 / 2) ↔ 2 * a < b := by
  constructor
  · intro h
    have h2 : ((2 * a : Nat) : ℚ) < (b : ℚ) := by push_cast; linarith
    exact_mod_cast h2
  · intro h
    have h2 : ((2 * a : Nat) : ℚ) < ((b : Nat) : ℚ) := by exact_mod_cast h
    push_cast at h2
    linarith

/-- Claim C2, amended.  Full characterisation of the classifier, making the
override explicit: the result is `critical` exactly when fewer than half the
services are healthy AND the overall error rate does not exceed the
threshold (a high error rate downgrades the verdict to `degraded` even
then); `healthy` exactly when every service is healthy and the rate does not
exceed the threshold; `degraded` in every other situation.  The three
scenario instances (0 of 2, 1 of 2, 2 of 2 healthy, error rate below
threshold) evaluate to `critical`, `degraded`, `healthy`. -/
theorem C2_overall_health (t : ℚ) (ms : List ServiceMetrics) :
    ((calculateOverallHealth t ms = OverallStatus.healthy ↔
        (¬ overallErrorRate ms > t ∧ ¬ servicesOnline ms < ms.length)) ∧
      (calculateOverallHealth t ms = OverallStatus.critical ↔
        (¬ overallErrorRate ms > t ∧ 2 * servicesOnline ms < ms.length)) ∧
      (calculateOverallHealth t ms = OverallStatus.degraded ↔
        (overallErrorRate ms > t ∨
          (servicesOnline ms < ms.length ∧ ¬ 2 * servicesOnline ms < ms.length)))) ∧
    calculateOverallHealth (1 / 20) [mUnhealthyLow, mUnhealthyLow] = OverallStatus.critical ∧
    calculateOverallHealth (1 / 20) [mHealthyOk, mUnhealthyLow] = OverallStatus.degraded ∧
    calculateOverallHealth (1 / 20) [mHealthyOk, mHealthyOk] = OverallStatus.healthy := by
  refine ⟨?_, ?_, ?_, ?_⟩
  · have hBA : 2 * servicesOnline ms < ms.length → servicesOnline ms < ms.length := by
      omega
    simp only [calculateOverallHealth, half_lt_iff]
    by_cases hC : overallErrorRate ms > t <;>
      by_cases hB : 2 * servicesOnline ms < ms.length <;>
      by_cases hA : servicesOnline ms < ms.length <;>
      first
        | exact absurd (hBA hB) hA
        | simp [hC, hB, hA]
  · simp [calculateOverallHealth, servicesOnline, overallErrorRate, totalRequestsAll,
      totalErrorsAll, mUnhealthyLow, initialMetrics, List.countP_cons, List.countP_nil]
  · simp [calculateOverallHealth, servicesOnline, overallErrorRate, totalRequestsAll,
      totalErrorsAll, mHealthyOk, mUnhealthyLow, initialMetrics, List.countP_cons,
      List.countP_nil]
  · simp [calculateOverallHealth, servicesOnline, overallErrorRate, totalRequestsAll,
      totalErrorsAll, mHealthyOk, initialMetrics, List.countP_cons, List.countP_nil]

/- ### Claim C3: rollback exactly from the deploy phase onward -/

/-- Running the pipeline loop from step `i` with `n` steps left: if the first
failure among the remaining steps is at offset `d`, the loop stops there,
records the failure, decides rollback from that index, and re-raises. -/
theorem deployLoop_fail (f : Nat → StepOutcome) :
    ∀ (n i d : Nat) (msg : String), d < n → (∀ j, j < d → f (i + j) = StepOutcome.ok) →
      f (i + d) = StepOutcome.err msg →
      deployLoop f n i =
        { success := false, failedStep := some (i + d)
          rollbackInvoked := rollbackDecision (i + d)
          failureRecorded := true, errorRaised := true } := by
  intro n
  induction n with
  | zero => intro i d msg hd _ _; omega
  | succ n ih =>
      intro i d msg hd hprev hfail
      cases d with
      | zero =>
          rw [Nat.add_zero] at hfail
          simp [deployLoop, hfail]
      | succ e =>
          have h0 : f i = StepOutcome.ok := by simpa using hprev 0 (Nat.succ_pos e)
          have hprev1 : ∀ j, j < e → f (i + 1 + j) = StepOutcome.ok := by
            intro j hj
            have h := hprev (j + 1) (by omega)
            rwa [show i + (j + 1) = i + 1 + j by omega] at h
          have hfail1 : f (i + 1 + e) = StepOutcome.err msg := by
            rwa [show i + (e + 1) = i + 1 + e by omega] at hfail
          have h := ih (i + 1) e msg (by omega) hprev1 hfail1
          rw [show i + (e + 1) = i + 1 + e by omega]
          simpa [deployLoop, h0] using h

/-- Claim C3, confirmed.  When the phase with 0-based loop index `i` is the
first to throw, rollback is invoked exactly when its 1-based index `i + 1`
is at least 3 (deploy-services or later); in every failing case the error is
recorded in a failure document, re-raised out of `deploy()`, and the CLI
exits with code 1. -/
theorem C3_rollback_iff (f : Nat → StepOutcome) (i : Nat) (msg : String)
    (hlt : i < 7) (hprev : ∀ j, j < i → f j = StepOutcome.ok)
    (hfail : f i = StepOutcome.err msg) :
    ((deployRun f).rollbackInvoked = true ↔ 3 ≤ i + 1) ∧
    (deployRun f).failedStep = some i ∧
    (deployRun f).success = false ∧
    (deployRun f).failureRecorded = true ∧
    (deployRun f).errorRaised = true ∧
    mainRun ["staging"] f = MainOutcome.ranPipeline "staging" 1 := by
  have h := deployLoop_fail f 7 0 i msg hlt (fun j hj => by simpa using hprev j hj)
    (by simpa using hfail)
  have hr : deployRun f =
      { success := false, failedStep := some i
        rollbackInvoked := rollbackDecision i
        failureRecorded := true, errorRaised := true } := by
    simpa [deployRun] using h
  refine ⟨?_, by rw [hr], by rw [hr], by rw [hr], by rw [hr], ?_⟩
  · rw [hr]
    simp only [rollbackDecision, decide_eq_true_eq]
    omega
  · simp [mainRun, resolveEnvironment, hr]

/-- Claim C3, witness: a failure at 0-based step 2 (deploy-services, 1-based
index 3) invokes rollback. -/
theorem C3_witness :
    (deployRun fFailAt2).rollbackInvoked = true ∧
    (deployRun fFailAt2).failedStep = some 2 := by
  have h := C3_rollback_iff fFailAt2 2 "deploy blew up" (by omega)
    (fun j hj => by simp [fFailAt2, hj]) (by simp [fFailAt2])
  exact ⟨h.1.mpr (by omega), h.2.1⟩

/- ### Claim C9: progress-state invariants -/

/-- Invariant of the per-iteration snapshots: once the pipeline has started
(`phase` is `started`, `totalSteps = 7`) every later snapshot keeps
`currentStep` within `totalSteps` and never changes `phase` or
`totalSteps`. -/
theorem loopStates_inv (f : Nat → StepOutcome) :
    ∀ (n i : Nat) (s : OrchState), s.totalSteps = 7 → s.phase = "started" → i + n ≤ 7 →
      ∀ t ∈ loopStates f n i s,
        t.currentStep ≤ t.totalSteps ∧ (t.totalSteps = 0 ∨ t.totalSteps = 7) ∧
        (t.phase = "initialized" ∨ t.phase = "started") := by
  intro n
  induction n with
  | zero => intro i s _ _ _ t ht; simp [loopStates] at ht
  | succ n ih =>
      intro i s hts hph hle t ht
      simp only [loopStates] at ht
      rcases hfi : f i with _ | msg <;> rw [hfi] at ht
      · rcases List.mem_cons.mp ht with rfl | ht
        · exact ⟨by simp [hts]; omega, by simp [hts], by simp [hph]⟩
        · exact ih (i + 1) { s with currentStep := i + 1 } (by simp [hts]) (by simp [hph])
            (by omega) t ht
      · rcases List.mem_cons.mp ht with rfl | ht
        · exact ⟨by simp [hts]; omega, by simp [hts], by simp [hph]⟩
        · simp at ht

/-- Claim C9, counterexample.  In a fully successful run the `phase` field
is `initialized` then `started` at every point: at the snapshot where
`currentStep = 1` (the pipeline is executing its first stage) `phase` is
`started`, not a stage name — `phase` never advances through the stage
names at all. -/
theorem C9_counterexample :
    (deployStates allOk).map OrchState.phase =
      ["initialized", "started", "started", "started", "started", "started", "started",
        "started", "started", "started"] ∧
    (deployStates allOk).get? 3 =
      some { phase := "started", currentStep := 1, totalSteps := 7 } ∧
    "started" ≠ "validate-environment" := by
  refine ⟨by rfl, by rfl, by decide⟩

/-- Claim C9, amended.  Throughout any run, `currentStep` never exceeds
`totalSteps`; `totalSteps` is `0` from construction until the step list is
built and `7` from then on; and `phase` only ever holds `initialized` then
`started` — it does not track the current stage name (and in particular is
trivially frozen from the start of the pipeline onward, on success and on
failure alike). -/
theorem C9_progress (f : Nat → StepOutcome) (s : OrchState) (hs : s ∈ deployStates f) :
    s.currentStep ≤ s.totalSteps ∧ (s.totalSteps = 0 ∨ s.totalSteps = 7) ∧
    (s.phase = "initialized" ∨ s.phase = "started") := by
  simp only [deployStates] at hs
  rcases List.mem_cons.mp hs with rfl | hs
  · exact ⟨by simp [initOrchState], by simp [initOrchState], by simp [initOrchState]⟩
  rcases List.mem_cons.mp hs with rfl | hs
  · exact ⟨by simp [initOrchState], by simp [initOrchState], by simp [initOrchState]⟩
  rcases List.mem_cons.mp hs with rfl | hs
  · exact ⟨by simp [initOrchState], by simp [initOrchState], by simp [initOrchState]⟩
  · exact loopStates_inv f 7 0 _ rfl rfl (by omega) s hs

/-- Claim C9, witness: the amended invariants at a concrete snapshot of a
concrete run. -/
theorem C9_witness :
    ({ phase := "started", currentStep := 1, totalSteps := 7 } : OrchState).currentStep ≤
      ({ phase := "started", currentStep := 1, totalSteps := 7 } : OrchState).totalSteps :=
  (C9_progress allOk { phase := "started", currentStep := 1, totalSteps := 7 }
    (by decide)).1

/- ### Claim C8: health-check retry exhaustion -/

/-- If some attempt within the remaining budget succeeds, the retry loop
returns without error. -/
theorem healthCheckGo_ok (name : String) (g : Nat → Bool) (M : Nat) :
    ∀ (n attempts : Nat), attempts + n ≤ M →
      (∃ k, attempts < k ∧ k ≤ attempts + n ∧ g k = true) →
      healthCheckGo name g M n attempts = Except.ok () := by
  intro n
  induction n with
  | zero =>
      intro attempts _ hex
      obtain ⟨k, hk1, hk2, _⟩ := hex
      omega
  | succ n ih =>
      intro attempts hle hex
      simp only [healthCheckGo]
      by_cases hga : g (attempts + 1) = true
      · simp [hga]
      · rw [if_neg hga]
        have hne : ¬ attempts + 1 = M := by
          obtain ⟨k, hk1, hk2, hk3⟩ := hex
          intro heq
          have : k = attempts + 1 := by omega
          exact hga (this ▸ hk3)
        rw [if_neg hne]
        apply ih (attempts + 1) (by omega)
        obtain ⟨k, hk1, hk2, hk3⟩ := hex
        have : k ≠ attempts + 1 := fun h => hga (h ▸ hk3)
        exact ⟨k, by omega, by omega, hk3⟩

/-- If every attempt up to the configured maximum fails, the retry loop
throws the exhausted-retries error. -/
theorem healthCheckGo_err (name : String) (g : Nat → Bool) (M : Nat) :
    ∀ (n attempts : Nat), attempts + n = M → 1 ≤ n →
      (∀ k, attempts < k → k ≤ M → g k = false) →
      healthCheckGo name g M n attempts = Except.error (failMsg name M) := by
  intro n
  induction n with
  | zero => intro attempts _ h1 _; omega
  | succ n ih =>
      intro attempts heq _ hall
      simp only [healthCheckGo]
      have hga : g (attempts + 1) = false := hall (attempts + 1) (by omega) (by omega)
      rw [if_neg (by simp [hga])]
      by_cases hm : attempts + 1 = M
      · rw [if_pos hm]
      · rw [if_neg hm]
        exact ih (attempts + 1) (by omega) (by omega)
          (fun k hk1 hk2 => hall k (by omega) hk2)

/-- Claim C8, confirmed.  With `maxAttempts ≥ 1` configured: a service all
of whose attempts fail makes the health-checks phase throw the error
`"Health check failed for <name> after <maxAttempts> attempts"`, which names
the service and the attempt count; a service with any successful attempt
within the budget passes without error; and a pipeline whose 0-based step 3
(health-checks, 1-based index 4) throws invokes rollback. -/
theorem C8_health_check_retries (name : String) (g : Nat → Bool) (maxAttempts : Nat)
    (pf : Nat → StepOutcome) (hm : 1 ≤ maxAttempts) :
    ((∀ k, 1 ≤ k → k ≤ maxAttempts → g k = false) →
      healthCheckService name g maxAttempts =
        Except.error (failMsg name maxAttempts)) ∧
    ((∃ k, 1 ≤ k ∧ k ≤ maxAttempts ∧ g k = true) →
      healthCheckService name g maxAttempts = Except.ok ()) ∧
    ((∀ j, j < 3 → pf j = StepOutcome.ok) → pf 3 = StepOutcome.err (failMsg name maxAttempts) →
      (deployRun pf).rollbackInvoked = true ∧ (deployRun pf).failedStep = some 3) := by
  refine ⟨?_, ?_, ?_⟩
  · intro hall
    exact healthCheckGo_err name g maxAttempts maxAttempts 0 (by omega) hm
      (fun k hk1 hk2 => hall k (by omega) hk2)
  · intro hex
    obtain ⟨k, hk1, hk2, hk3⟩ := hex
    exact healthCheckGo_ok name g maxAttempts maxAttempts 0 (by omega)
      ⟨k, by omega, by omega, hk3⟩
  · intro hprev hfail
    have h := deployLoop_fail pf 7 0 3 (failMsg name maxAttempts) (by omega)
      (fun j hj => by simpa using hprev j hj) (by simpa using hfail)
    have hr : deployRun pf =
        { success := false, failedStep := some 3
          rollbackInvoked := rollbackDecision 3
          failureRecorded := true, errorRaised := true } := by
      simpa [deployRun] using h
    rw [hr]
    exact ⟨by simp [rollbackDecision], rfl⟩

/-- Claim C8, witness: three configured attempts, all failing, for a
concrete service, and the resulting abort at the health-checks step. -/
theorem C8_witness :
    healthCheckService "backend" (fun _ => false) 3 = Except.error (failMsg "backend" 3) ∧
    (deployRun pfFailAt3).rollbackInvoked = true ∧
    (deployRun pfFailAt3).failedStep = some 3 := by
  have h := C8_health_check_retries "backend" (fun _ => false) 3 pfFailAt3 (by omega)
  have h3 := h.2.2 (fun j hj => by simp [pfFailAt3, hj]) (by simp [pfFailAt3, failMsg])
  exact ⟨h.1 (fun k _ _ => rfl), h3.1, h3.2⟩

/- ### Claim C5: rollback order and eligibility -/

/-- The accumulator form of the rollback iteration collects exactly the
deployed services, in iteration order. -/
theorem rollback_foldl (l : List (String × RecStatus)) :
    ∀ acc : List String,
      l.foldl (fun acc p => if p.2 = RecStatus.deployed then acc ++ [p.1] else acc) acc =
        acc ++ (l.filter (fun p => p.2 = RecStatus.deployed)).map Prod.fst := by
  induction l with
  | nil => intro acc; simp
  | cons p l ih =>
      intro acc
      by_cases hp : p.2 = RecStatus.deployed <;>
        simp [List.foldl_cons, List.filter_cons, hp, ih]

/-- Claim C5, confirmed.  Rollback touches exactly the services recorded as
`deployed`, in the reverse of their deployment order; a service recorded as
`failed` is never rolled back (service names are unique, as they are the
keys of the recorded map). -/
theorem C5_rollback_order (svcs : List (String × RecStatus))
    (hnd : (svcs.map Prod.fst).Nodup) :
    rollbackSequence svcs =
      ((svcs.filter (fun p => p.2 = RecStatus.deployed)).map Prod.fst).reverse ∧
    ∀ p ∈ svcs, p.2 = RecStatus.failed → p.1 ∉ rollbackSequence svcs := by
  have hseq : rollbackSequence svcs =
      ((svcs.filter (fun p => p.2 = RecStatus.deployed)).map Prod.fst).reverse := by
    unfold rollbackSequence
    rw [rollback_foldl]
    simp [List.filter_reverse, List.map_reverse]
  refine ⟨hseq, ?_⟩
  intro p hp hfailed hmem
  rw [hseq, List.mem_reverse] at hmem
  obtain ⟨q, hq, hq1⟩ := List.mem_map.mp hmem
  have hqin : q ∈ svcs := List.mem_of_mem_filter hq
  have hqdep : q.2 = RecStatus.deployed := by
    have h := List.of_mem_filter hq
    simpa using h
  have hpq : p = q := List.inj_on_of_nodup_map hnd hp hqin hq1.symm
  rw [hpq, hqdep] at hfailed
  exact absurd hfailed (by decide)

/-- Claim C5, witness: one deployed and one failed service. -/
theorem C5_witness :
    rollbackSequence svcsW =
      ((svcsW.filter (fun p => p.2 = RecStatus.deployed)).map Prod.fst).reverse ∧
    "frontend" ∉ rollbackSequence svcsW := by
  have h := C5_rollback_order svcsW (by decide)
  exact ⟨h.1, h.2 ("frontend", RecStatus.failed) (by decide) rfl⟩

/- ### Claim C6: alert deduplication, cap, eviction -/

/-- Claim C6, confirmed.  A `createAlert` call whose (service, message) pair
matches an alert still in the list created within the trailing 5 minutes is
suppressed entirely (list unchanged, nothing dispatched or persisted); once
every matching alert is at least 5 minutes old the alert is created again:
appended and dispatched, with the list capped at 50 by evicting the
oldest. -/
theorem C6_alert_dedup (now : Nat) (alerts : List Alert) (a1 a2 : Alert) :
    (a1 ∈ alerts → a2.service = a1.service → a2.message = a1.message →
      now - a1.timestamp < 300000 →
      createAlert now alerts a2 = (alerts, false)) ∧
    ((∀ e ∈ alerts, e.service = a2.service → e.message = a2.message →
        300000 ≤ now - e.timestamp) →
      ((alerts.length < 50 → createAlert now alerts a2 = (alerts ++ [a2], true)) ∧
        (alerts.length = 50 → createAlert now alerts a2 = (alerts.drop 1 ++ [a2], true)) ∧
        (alerts.length ≤ 50 → (createAlert now alerts a2).1.length ≤ 50))) := by
  constructor
  · intro hmem hs hm ht
    have hdup : isDuplicate now alerts a2 = true := by
      unfold isDuplicate
      rw [List.any_eq_true]
      exact ⟨a1, hmem, by simp [hs, hm, ht]⟩
    simp [createAlert, hdup]
  · intro hold
    have hdup : isDuplicate now alerts a2 = false := by
      unfold isDuplicate
      rw [List.any_eq_false]
      intro e he
      by_cases hs : e.service = a2.service
      · by_cases hm : e.message = a2.message
        · have hts := hold e he hs hm
          simp [hs, hm]
          omega
        · simp [hm]
      · simp [hs]
    refine ⟨?_, ?_, ?_⟩
    · intro hlen
      have hgt : ¬ (alerts ++ [a2]).length > 50 := by
        simp only [List.length_append, List.length_singleton]
        omega
      simp only [createAlert, hdup]
      rw [if_neg (by simp), if_neg hgt]
    · intro hlen
      have hgt : (alerts ++ [a2]).length > 50 := by
        simp only [List.length_append, List.length_singleton]
        omega
      simp only [createAlert, hdup]
      rw [if_neg (by simp), if_pos hgt,
        List.drop_append_of_le_length (by omega : 1 ≤ alerts.length)]
    · intro hle
      simp only [createAlert, hdup]
      rw [if_neg (by simp)]
      by_cases hgt : (alerts ++ [a2]).length > 50
      · rw [if_pos hgt]
        simp only [List.length_drop, List.length_append, List.length_singleton]
        omega
      · rw [if_neg hgt]
        simp only [List.length_append, List.length_singleton] at hgt ⊢
        omega

/-- Claim C6, witness: an identical alert 1 minute later is suppressed;
exactly at the 5-minute boundary it is created and appended. -/
theorem C6_witness :
    createAlert 60000 [alertW1] alertW2 = ([alertW1], false) ∧
    createAlert 300000 [alertW1] alertW2 = ([alertW1, alertW2], true) := by
  have h1 := (C6_alert_dedup 60000 [alertW1] alertW1 alertW2).1 (by decide) rfl rfl (by decide)
  have h2 := ((C6_alert_dedup 300000 [alertW1] alertW1 alertW2).2
    (by decide)).1 (by decide)
  exact ⟨h1, by simpa using h2⟩

/- ### Claim C10: CLI default environment -/

/-- Claim C10, confirmed.  With no positional argument the CLI does not exit
1 up front: the environment defaults to `staging` and the pipeline runs
(exit code then 0 on success, 1 on failure); the immediate exit-1 path is
reachable only when an argument was supplied that is non-empty and outside
`{staging, production}` (an empty-string argument is falsy in JS and also
defaults to staging). -/
theorem C10_cli_default (f : Nat → StepOutcome) :
    mainRun [] f =
      MainOutcome.ranPipeline "staging" (if (deployRun f).success then 0 else 1) ∧
    (∀ (args : List String) (c : Nat), mainRun args f = MainOutcome.invalidExit c →
      c = 1 ∧ ∃ s, args.head? = some s ∧ s ≠ "" ∧ s ≠ "staging" ∧ s ≠ "production") := by
  constructor
  · simp [mainRun, resolveEnvironment]
  · intro args c hmain
    cases args with
    | nil => simp [mainRun, resolveEnvironment] at hmain
    | cons s rest =>
        by_cases hs : s = ""
        · simp [mainRun, resolveEnvironment, hs] at hmain
        · by_cases hstg : s = "staging"
          · simp [mainRun, resolveEnvironment, hs, hstg] at hmain
          · by_cases hprod : s = "production"
            · simp [mainRun, resolveEnvironment, hs, hstg, hprod] at hmain
            · have hm2 : MainOutcome.invalidExit 1 = MainOutcome.invalidExit c := by
                simpa [mainRun, resolveEnvironment, hs, hstg, hprod] using hmain
              refine ⟨by cases hm2; rfl, s, rfl, hs, hstg, hprod⟩

/-- Claim C10, witness: a supplied invalid argument is the only immediate
exit path. -/
theorem C10_witness :
    1 = 1 ∧ ∃ s, (["bogus"] : List String).head? = some s ∧
      s ≠ "" ∧ s ≠ "staging" ∧ s ≠ "production" :=
  (C10_cli_default allOk).2 ["bogus"] 1 (by decide)

/-- Claim C2, witness: the classifier evaluated at the 0-of-2-healthy,
low-error-rate instance. -/
theorem C2_witness :
    calculateOverallHealth (1 / 20) [mUnhealthyLow, mUnhealthyLow] = OverallStatus.critical :=
  (C2_overall_health (1 / 20) [mUnhealthyLow, mUnhealthyLow]).2.1

/-- Claim C4, witness: a concrete 2xx check records the sample and resets
status. -/
theorem C4_witness :
    (checkServiceHealth 0 (CheckOutcome.httpOk 5 none) initialMetrics).status
      = SvcStatus.healthy :=
  ((C4_sample_recording 0 5 none initialMetrics).1).2.1
